import Mathlib

/-!
# Verification of the `cmd/trade-client` command-line trading client

A shallow embedding, in Lean 4, of `src/cmd/trade-client/main.go` from the
`khcchiu/cw-sdk-go` repository, together with theorems settling the frozen
claims about its specification.

Modelling conventions:
* Go `error` values observable in `main.go` become the inductive `GoErr`;
  a Go `error` that may be `nil` becomes `Option GoErr` (`none` = `nil`).
* Go channels of capacity 1 become lists of length at most 1; a send on a
  full buffer blocks, which the embedding represents explicitly.
* The `select` statements choose between events; the embedding takes the
  winning event as an explicit parameter of the modelled function.
* Collaborator calls (the websocket client) are parameters: the reply the
  collaborator would produce is passed in as an argument.
-/

set_option autoImplicit false

namespace TradeClient

/-- Command-line arguments of the trade client (`type cliArgs struct` in
`main.go`). `MarketID` is a Go `int`, modelled as `Int`. -/
structure cliArgs where
  Verbose : Bool
  Mode : String
  MarketID : Int
  ExchAPIKey : String
  ExchSecretKey : String
  OrderID : String
  deriving DecidableEq, Repr

/-- The Go `error` values observable in `main.go`: the four errors built by
`checkCliArgs` (three `errors.New` literals and the package-level
`errUnknownMode`), `context.Canceled` (the value of `ctx.Err()` after
`cancel()`), and opaque errors coming from collaborators (config loading,
client construction, trading calls, mid-session errors), carried with their
message. -/
inductive GoErr where
  | modeNotSpecified
  | unknownMode
  | marketidEmpty
  | orderidEmpty
  | ctxCanceled
  | external (msg : String)
  deriving DecidableEq, Repr

/-- Function `checkCliArgs` from `main.go` (lines 307–325): returns `some e` for the
first failing check, `none` when the arguments validate. -/
def checkCliArgs (a : cliArgs) : Option GoErr :=
  if a.Mode = "" then some .modeNotSpecified
  else if a.Mode ≠ "place" ∧ a.Mode ≠ "cancel" ∧ a.Mode ≠ "list" ∧ a.Mode ≠ "balances" then
    some .unknownMode
  else if a.MarketID = 0 then some .marketidEmpty
  else if a.Mode = "cancel" ∧ a.OrderID = "" then some .orderidEmpty
  else none

/-! ## The orchestrator `TradeApp.run` (lines 195–215)

`run` calls `client.Connect()` and then blocks in a `select` between
`ctx.Done()` and the readiness channel `app.ready`. The embedding takes the
winning event as a parameter: `some ctxDone`, `some ready`, or `none` when
neither event ever fires (the goroutine stays blocked in the `select`
forever). The outcome of each dispatcher method is supplied by
`dispatchErr`, the error result the collaborator call inside that method
would produce. -/

/-- The event that wins the `select` of `TradeApp.run`. -/
inductive RunTrigger where
  | ctxDone
  | ready
  deriving DecidableEq, Repr

/-- Observable result of `TradeApp.run`: the dispatcher methods invoked (in
order), the values sent on `errChan` (a sent Go `nil` error is `none`), and
whether the `default` branch of the mode switch was taken. -/
structure RunResult where
  dispatches : List String
  sends : List (Option GoErr)
  hitDefault : Bool
  deriving DecidableEq, Repr

/-- Method `TradeApp.run`, shallowly embedded. On `ctxDone` it sends `ctx.Err()`,
which is `context.Canceled` after `cancel()`. On `ready` it switches on the
mode exactly as the Go `switch` does, sending the invoked method's error
result, or `errUnknownMode` from the `default` branch. -/
def runApp (trigger : Option RunTrigger) (mode : String)
    (dispatchErr : String → Option GoErr) : RunResult :=
  match trigger with
  | none => { dispatches := [], sends := [], hitDefault := false }
  | some .ctxDone => { dispatches := [], sends := [some .ctxCanceled], hitDefault := false }
  | some .ready =>
    if mode = "list" then
      { dispatches := ["list"], sends := [dispatchErr "list"], hitDefault := false }
    else if mode = "balances" then
      { dispatches := ["balances"], sends := [dispatchErr "balances"], hitDefault := false }
    else if mode = "place" then
      { dispatches := ["place"], sends := [dispatchErr "place"], hitDefault := false }
    else if mode = "cancel" then
      { dispatches := ["cancel"], sends := [dispatchErr "cancel"], hitDefault := false }
    else
      { dispatches := [], sends := [some .unknownMode], hitDefault := true }

/-! ## `main` (lines 26–97)

Parameters supply the environment: the parsed arguments, the `--config`
path, the result of `config.NewFromPath` (consulted only when a path was
given), the error result of `NewTradeApp`, the event that wins the `select`
between the OS-signal channel and `app.errChan`, and the error result of
`app.client.Close()`. -/

/-- The event that wins the `select` in `main` (lines 77–90). -/
inductive MainEvent where
  | osSignal
  | outcome (e : Option GoErr)
  deriving DecidableEq, Repr

/-- Observable result of `main`: the process exit status, the errors
printed via the `log` package (which writes to standard error), whether
`Close()` was reached, and whether `app.run` — and with it
`client.Connect()` — was ever started. -/
structure MainResult where
  exitCode : Nat
  loggedErrors : List GoErr
  closeCalled : Bool
  connectCalled : Bool
  deriving DecidableEq, Repr

/-- Function `main`, shallowly embedded. Validation, config-load, and construction
failures each `log.Print` the error and `os.Exit(1)` before the run starts.
Otherwise `go app.run(ctx)` starts (so `Connect()` is called), the `select`
resolves to `ev` — a received non-nil error is logged but execution simply
falls through — and then `Close()` runs: on failure `log.Fatalf` logs the
error and exits with status 1, else `main` returns and the process exits 0. -/
def mainRun (args : cliArgs) (configPath : String) (cfgLoad : Option GoErr)
    (newApp : Option GoErr) (ev : MainEvent) (closeErr : Option GoErr) : MainResult :=
  match checkCliArgs args with
  | some e => { exitCode := 1, loggedErrors := [e], closeCalled := false, connectCalled := false }
  | none =>
    match (if configPath ≠ "" then cfgLoad else none) with
    | some e => { exitCode := 1, loggedErrors := [e], closeCalled := false, connectCalled := false }
    | none =>
      match newApp with
      | some e => { exitCode := 1, loggedErrors := [e], closeCalled := false, connectCalled := false }
      | none =>
        let loggedSel : List GoErr :=
          match ev with
          | .osSignal => []
          | .outcome none => []
          | .outcome (some e) => [e]
        match closeErr with
        | some e =>
          { exitCode := 1, loggedErrors := loggedSel ++ [e],
            closeCalled := true, connectCalled := true }
        | none =>
          { exitCode := 0, loggedErrors := loggedSel,
            closeCalled := true, connectCalled := true }

/-- Arguments that validate in `list` mode, used as concrete inputs. -/
def argsList : cliArgs :=
  { Verbose := false, Mode := "list", MarketID := 1,
    ExchAPIKey := "", ExchSecretKey := "", OrderID := "" }

/-! ## The outcome handoff `errChan` (`make(chan error, 1)`, line 140)

A Go buffered channel of capacity 1, modelled by its buffer: a list of
length at most 1, oldest value first. A plain send `ch <- v` enqueues when
the buffer has space and otherwise blocks the sender; a receive takes the
oldest value and otherwise blocks the receiver. -/

/-- One attempted send on the capacity-1 buffered channel: `some` of the new
buffer when the value is enqueued and the sender proceeds, `none` when the
buffer is full and the sender blocks. -/
def chanSend {α : Type} (buf : List α) (v : α) : Option (List α) :=
  if buf.length < 1 then some (buf ++ [v]) else none

/-- One attempted receive: the oldest value and the rest of the buffer, or
`none` when the buffer is empty and the receiver blocks. -/
def chanRecv {α : Type} (buf : List α) : Option (α × List α) :=
  match buf with
  | [] => none
  | v :: rest => some (v, rest)

/-- Push a sequence of send attempts through the buffer in the order the
senders reach the channel, with no intervening receive. A sender that finds
the buffer full blocks; its value never enters the buffer. Returns the
final buffer and the blocked senders' values in order. -/
def pushSends {α : Type} (buf : List α) : List α → List α × List α
  | [] => (buf, [])
  | v :: rest =>
    match chanSend buf v with
    | some buf2 => pushSends buf2 rest
    | none =>
      let r := pushSends buf rest
      (r.1, v :: r.2)

/-- The outcome `main`'s single `<-app.errChan` receive delivers when it
happens after the first `k` send attempts: the oldest buffered value, or —
when the buffer is still empty at that point — the value of the next send
to complete, on which the receive blocks until it arrives (`none` when no
send ever comes). -/
def deliveredOutcome {α : Type} (sends : List α) (k : Nat) : Option α :=
  match chanRecv (pushSends ([] : List α) (sends.take k)).1 with
  | some (v, _) => some v
  | none => (sends.drop k).head?

/-! ## Pre-readiness endings and the outcome actually recorded (C8)

The only writers to `errChan` in `main.go` are the four branches of
`TradeApp.run` and the error-callback handler registered at lines 186–190,
which forwards every non-nil reported error. The values those two sources
send are collected here. -/

/-- Values sent to `errChan` by the handler of lines 186–190 for the list
of error-callback invocations (`none` = the callback fired with a nil
error, which is not forwarded). -/
def onErrorSends (events : List (Option GoErr)) : List (Option GoErr) :=
  events.filterMap (fun e => match e with
    | some err => some (some err)
    | none => none)

/-- Every value sent to the termination-outcome channel `errChan` in a run
where the `select` of `TradeApp.run` resolves to `trigger` and the client
fires the error callback with `errEvents`. -/
def errChanSends (trigger : Option RunTrigger) (mode : String)
    (dispatchErr : String → Option GoErr) (errEvents : List (Option GoErr)) :
    List (Option GoErr) :=
  (runApp trigger mode dispatchErr).sends ++ onErrorSends errEvents

/-! ## The verbose state-change reporter (lines 144–174)

In verbose mode `NewTradeApp` registers two callbacks: an error callback
that prints non-disconnecting errors immediately and sends a disconnecting
error into `lastErrChan` (`make(chan error, 1)`), and a state-change
callback whose `select`/`default` performs a non-blocking receive from
`lastErrChan`, printing the transition annotated with the received error
when there is one (and plainly when the received error is nil or the
channel is empty).

The channel is modelled as the FIFO of values sent and not yet received:
the buffer together with blocked senders queued in send order. The
capacity (1) only gates sender progress — a sender past the first blocks
until a receive frees the slot, but its value still enters the channel in
send order — and the non-blocking receive succeeds exactly when this FIFO
is non-empty, so the FIFO captures every interleaving's delivery order.
Each error-callback invocation is tagged with its position in the event
list so that re-printing the same delivered error would be observable. -/

/-- An event observed by the verbose-mode callbacks: the error callback
fires with error `err` (`none` = Go nil) and the `disconnecting` flag, or a
state-change callback fires. States are abstracted as numbers. -/
inductive VEvent where
  | errEvent (err : Option GoErr) (disconnecting : Bool)
  | stateChange (oldState newState : Nat)
  deriving DecidableEq, Repr

/-- A log line printed by the verbose reporter. An annotated
state-transition line carries the index of the error event whose error it
surfaces. -/
inductive VLine where
  | errorLine (err : Option GoErr)
  | stateLine (oldState newState : Nat)
  | annotatedLine (oldState newState : Nat) (errIndex : Nat) (err : GoErr)
  deriving DecidableEq, Repr

/-- The reporter's mutable state: the pending-error FIFO (`lastErrChan`)
and the lines printed so far. -/
structure ReporterState where
  lastErrQueue : List (Nat × Option GoErr)
  lines : List VLine
  deriving DecidableEq, Repr

/-- One event handled by the verbose callbacks, literally following the two
callback bodies: a disconnecting error (`if disconnecting` in the Go error
callback) is saved for later, a non-disconnecting error is printed right
away, and a state change consumes at most one pending error, annotating the
line only when that error is non-nil. -/
def reporterStep (s : ReporterState) (idx : Nat) : VEvent → ReporterState
  | .errEvent err true => { s with lastErrQueue := s.lastErrQueue ++ [(idx, err)] }
  | .errEvent err false => { s with lines := s.lines ++ [.errorLine err] }
  | .stateChange o n =>
    match s.lastErrQueue with
    | (i, some err) :: rest =>
      { lastErrQueue := rest, lines := s.lines ++ [.annotatedLine o n i err] }
    | (_, none) :: rest =>
      { lastErrQueue := rest, lines := s.lines ++ [.stateLine o n] }
    | [] => { s with lines := s.lines ++ [.stateLine o n] }

/-- Run the reporter from state `s`, the next event having index `n`. -/
def reporterRunFrom (s : ReporterState) (n : Nat) : List VEvent → ReporterState
  | [] => s
  | ev :: rest => reporterRunFrom (reporterStep s n ev) (n + 1) rest

/-- Run the reporter on a full event history from the initial state. -/
def reporterRun (events : List VEvent) : ReporterState :=
  reporterRunFrom { lastErrQueue := [], lines := [] } 0 events

/-- The error-event index an output line surfaces, if it is annotated. -/
def lineAnnot : VLine → Option Nat
  | .annotatedLine _ _ i _ => some i
  | _ => none

/-- The indices of the error events surfaced by annotated lines, in print
order. -/
def annotIndices (lines : List VLine) : List Nat :=
  lines.filterMap lineAnnot

/-- Indices of the error events currently pending in `lastErrChan`. -/
def holderIndices (s : ReporterState) : List Nat :=
  s.lastErrQueue.map Prod.fst

/-- Invariant of the reporter after processing events of index below `n`:
annotated indices are pairwise distinct, pending indices are pairwise
distinct, no pending index has been annotated yet, and all indices seen are
below `n`. -/
def ReporterInv (s : ReporterState) (n : Nat) : Prop :=
  (annotIndices s.lines).Nodup
  ∧ (holderIndices s).Nodup
  ∧ (∀ i ∈ holderIndices s, i ∉ annotIndices s.lines ∧ i < n)
  ∧ (∀ i ∈ annotIndices s.lines, i < n)

/-! ## `TradeApp.balances` (lines 236–254) and the global `log` flags -/

/-- The state of the global `log` package as `balances` touches it: the
current flag bits and the lines written so far, each tagged with the flag
value in force when it was printed. -/
structure LogState where
  flags : Nat
  lines : List (Nat × String)
  deriving DecidableEq, Repr

/-- Go `log.Println`/`log.Printf`: append a line under the current flags. -/
def logPrint (s : LogState) (msg : String) : LogState :=
  { s with lines := s.lines ++ [(s.flags, msg)] }

/-- Go `log.SetFlags`. -/
def logSetFlags (s : LogState) (f : Nat) : LogState :=
  { s with flags := f }

/-- Method `TradeApp.balances`, with the collaborator's `GetBalances` reply passed
in (`.ok` carries the rendered balances value, `.error` the Go error).
Returns the updated logger state and the method's error result. -/
def balances (s : LogState) (reply : Except GoErr String) : LogState × Option GoErr :=
  let s1 := logPrint s "Getting balances..."
  match reply with
  | .error e => (logPrint s1 "ERROR: GetBalances()", some e)
  | .ok result =>
    let lf := s1.flags
    let s2 := logSetFlags s1 0
    let s3 := logPrint s2 ("balances=" ++ result)
    let s4 := logSetFlags s3 lf
    let s5 := logPrint s4 "Balances: done"
    (s5, none)

/-! ## `TradeApp.place` (lines 256–279) -/

/-- Values of `common.PriceParam.Type` used by `place`. -/
inductive PriceType where
  | absoluteValuePrice
  deriving DecidableEq, Repr

/-- Struct `common.PriceParam` (`Type` is spelled `ptype`, `Value` `value`). -/
structure PriceParam where
  ptype : PriceType
  value : String
  deriving DecidableEq, Repr

/-- Values of `common.OrderSide`. -/
inductive OrderSide where
  | buy
  | sell
  deriving DecidableEq, Repr

/-- Values of `common.OrderType`. -/
inductive OrderType where
  | limitOrder
  | marketOrder
  deriving DecidableEq, Repr

/-- Struct `common.PlaceOrderParams` as populated by `TradeApp.place`. -/
structure PlaceOrderParams where
  priceParams : List PriceParam
  marketID : Int
  amount : String
  orderSide : OrderSide
  orderType : OrderType
  deriving DecidableEq, Repr

/-- The fields of `TradeApp` that `place` reads: the market id
(`common.MarketID(args.MarketID)` in `NewTradeApp`) and the parsed
arguments. -/
structure TradeApp where
  marketID : Int
  args : cliArgs
  deriving DecidableEq, Repr

/-- The `TradeApp` built by `NewTradeApp` from validated arguments. -/
def mkTradeApp (args : cliArgs) : TradeApp :=
  { marketID := args.MarketID, args := args }

/-- The `common.PlaceOrderParams` literal that `TradeApp.place` passes to
`client.PlaceOrder` (lines 259–270). -/
def placeParams (app : TradeApp) : PlaceOrderParams :=
  { priceParams := [{ ptype := .absoluteValuePrice, value := "0.01" }]
    marketID := app.marketID
    amount := "0.01"
    orderSide := .buy
    orderType := .limitOrder }

/-- Method `TradeApp.place`: submits `placeParams app` to `client.PlaceOrder`,
whose behavior is the parameter `placeOrder` (`.ok` carries the rendered
created order). Returns the log lines printed and the error result. -/
def place (app : TradeApp)
    (placeOrder : PlaceOrderParams → Except GoErr String) :
    List String × Option GoErr :=
  match placeOrder (placeParams app) with
  | .error e => (["Trading ready: placing order..."], some e)
  | .ok order =>
    (["Trading ready: placing order...", "Order placed: " ++ order], none)

/-- Two distinct validated `place`-mode argument sets, used to exhibit that
the submitted order parameters do not depend on the command request. -/
def argsPlaceA : cliArgs :=
  { Verbose := false, Mode := "place", MarketID := 1,
    ExchAPIKey := "keyA", ExchSecretKey := "", OrderID := "" }

/-- Second argument set, differing from `argsPlaceA`. -/
def argsPlaceB : cliArgs :=
  { Verbose := true, Mode := "place", MarketID := 1,
    ExchAPIKey := "keyB", ExchSecretKey := "", OrderID := "X" }

example :
    checkCliArgs { Verbose := false, Mode := "list", MarketID := 1,
                   ExchAPIKey := "", ExchSecretKey := "", OrderID := "" } = none := by
  decide

example :
    checkCliArgs { Verbose := false, Mode := "cancel", MarketID := 1,
                   ExchAPIKey := "", ExchSecretKey := "", OrderID := "" } =
      some .orderidEmpty := by
  decide

example :
    checkCliArgs { Verbose := false, Mode := "sell", MarketID := 1,
                   ExchAPIKey := "", ExchSecretKey := "", OrderID := "" } =
      some .unknownMode := by
  decide

/-- Helper: the exact validity condition decided by `checkCliArgs`. -/
theorem checkCliArgs_none_iff (a : cliArgs) :
    checkCliArgs a = none ↔
      ((a.Mode = "list" ∨ a.Mode = "balances" ∨ a.Mode = "place" ∨ a.Mode = "cancel")
        ∧ a.MarketID ≠ 0
        ∧ (a.Mode = "cancel" → a.OrderID ≠ "")) := by
  unfold checkCliArgs
  split_ifs with h1 h2 h3 h4
  · simp_all
  · constructor
    · intro h; exact absurd h (by simp)
    · rintro ⟨hmode, -, -⟩
      rcases hmode with h | h | h | h <;> simp_all
  · constructor
    · intro h; exact absurd h (by simp)
    · rintro ⟨-, hmid, -⟩
      exact absurd h3 hmid
  · constructor
    · intro h; exact absurd h (by simp)
    · rintro ⟨-, -, hord⟩
      exact absurd h4.2 (hord h4.1)
  · push_neg at h2
    constructor
    · intro _
      refine ⟨?_, h3, fun hc hord => h4 ⟨hc, hord⟩⟩
      by_cases hp : a.Mode = "place"
      · tauto
      by_cases hc : a.Mode = "cancel"
      · tauto
      by_cases hl : a.Mode = "list"
      · tauto
      · exact Or.inr (Or.inl (h2 hp hc hl))
    · intro _; rfl

example : checkCliArgs argsList = none := by decide

/-- C4: the dispatcher is invoked at most once, never unless the readiness
event won the `select`, and if the cancellation token wins before
readiness, no dispatcher runs and the value sent as the outcome is the
cancellation error `context.Canceled`. -/
theorem run_dispatch_gating (trigger : Option RunTrigger) (mode : String)
    (dispatchErr : String → Option GoErr) :
    (runApp trigger mode dispatchErr).dispatches.length ≤ 1
    ∧ ((runApp trigger mode dispatchErr).dispatches ≠ [] → trigger = some RunTrigger.ready)
    ∧ (trigger = some RunTrigger.ctxDone →
        (runApp trigger mode dispatchErr).dispatches = []
        ∧ (runApp trigger mode dispatchErr).sends = [some GoErr.ctxCanceled]) := by
  rcases trigger with _ | t
  · simp [runApp]
  · cases t
    · simp [runApp]
    · refine ⟨?_, fun _ => rfl, fun h => by simp at h⟩
      simp only [runApp]
      split_ifs <;> simp

/-- Witness for C4 at a concrete input: cancellation before readiness in
`list` mode dispatches nothing and records the cancellation. -/
theorem run_dispatch_gating_witness :
    (runApp (some RunTrigger.ctxDone) "list" (fun _ => none)).dispatches = []
    ∧ (runApp (some RunTrigger.ctxDone) "list" (fun _ => none)).sends
        = [some GoErr.ctxCanceled] :=
  (run_dispatch_gating (some RunTrigger.ctxDone) "list" (fun _ => none)).2.2 rfl

/-- C5: an argument set that fails validation makes the program exit with
status 1 before `Connect()` is ever called, and whenever validation
succeeds the `default` (unknown-mode) branch of the dispatcher switch in
`run` is never taken. -/
theorem invalid_mode_rejected_before_connect (args : cliArgs) (configPath : String)
    (cfgLoad newApp closeErr : Option GoErr) (ev : MainEvent) (e : GoErr)
    (trigger : Option RunTrigger) (dispatchErr : String → Option GoErr) :
    (checkCliArgs args = some e →
      (mainRun args configPath cfgLoad newApp ev closeErr).connectCalled = false
      ∧ (mainRun args configPath cfgLoad newApp ev closeErr).exitCode = 1)
    ∧ (checkCliArgs args = none →
      (runApp trigger args.Mode dispatchErr).hitDefault = false) := by
  constructor
  · intro h
    simp [mainRun, h]
  · intro h
    have hmode := ((checkCliArgs_none_iff args).mp h).1
    rcases trigger with _ | t
    · simp [runApp]
    · cases t
      · simp [runApp]
      · simp only [runApp]
        split_ifs with h1 h2 h3 h4
        · rfl
        · rfl
        · rfl
        · rfl
        · rcases hmode with h | h | h | h <;> simp_all

/-- Witness for C5 at concrete inputs: mode `sell` is rejected without
connecting, and the validated `list` arguments never reach the `default`
branch. -/
theorem invalid_mode_rejected_before_connect_witness :
    ((mainRun { argsList with Mode := "sell" } "" none none MainEvent.osSignal none).connectCalled
        = false
      ∧ (mainRun { argsList with Mode := "sell" } "" none none MainEvent.osSignal none).exitCode
        = 1)
    ∧ (runApp (some RunTrigger.ready) argsList.Mode (fun _ => none)).hitDefault = false :=
  ⟨(invalid_mode_rejected_before_connect { argsList with Mode := "sell" } "" none none none
      MainEvent.osSignal GoErr.unknownMode (some RunTrigger.ready) (fun _ => none)).1 (by decide),
   (invalid_mode_rejected_before_connect argsList "" none none none
      MainEvent.osSignal GoErr.unknownMode (some RunTrigger.ready) (fun _ => none)).2 (by decide)⟩

/-- C1 counterexample: a run that ends with a dispatch error (the `select`
receives a non-nil error from `errChan`) still exits with status 0 when
`Close()` succeeds — the error is only logged. This contradicts the claim
that the exit status is non-zero whenever the run ends with a dispatch
error or mid-session error. -/
theorem dispatch_error_exits_zero :
    (mainRun argsList "" none none
        (MainEvent.outcome (some (GoErr.external "exchange rejected order"))) none).exitCode = 0
    ∧ GoErr.external "exchange rejected order" ∈
        (mainRun argsList "" none none
          (MainEvent.outcome (some (GoErr.external "exchange rejected order"))) none).loggedErrors := by
  decide

/-- C1 amended: the exit status is 0 exactly when argument validation, the
config load (when a path was given), client construction, and `Close()` all
succeed — regardless of whether the run ended via an OS signal or via an
`errChan` outcome, error or not. Every configuration error exits 1, and a
non-nil `errChan` error is written to the log (standard error) even though
the status stays 0. -/
theorem main_exit_code_characterization (args : cliArgs) (configPath : String)
    (cfgLoad newApp closeErr : Option GoErr) (ev : MainEvent) :
    ((mainRun args configPath cfgLoad newApp ev closeErr).exitCode = 0 ↔
      (checkCliArgs args = none ∧ (configPath ≠ "" → cfgLoad = none)
        ∧ newApp = none ∧ closeErr = none))
    ∧ (∀ e, ev = MainEvent.outcome (some e) →
        checkCliArgs args = none → (if configPath ≠ "" then cfgLoad else none) = none →
        newApp = none →
        e ∈ (mainRun args configPath cfgLoad newApp ev closeErr).loggedErrors) := by
  constructor
  · rcases hchk : checkCliArgs args with _ | ce <;>
      rcases hnew : newApp with _ | ae <;>
        rcases hclose : closeErr with _ | xe <;>
          by_cases hcp : configPath ≠ "" <;>
            rcases hcfg : cfgLoad with _ | fe <;>
              simp_all [mainRun]
  · intro e hev hchk hpath hnew
    subst hev hnew
    rcases closeErr with _ | xe <;> simp [mainRun, hchk, hpath]

/-- Witness for C1 amended at concrete inputs: a clean `list` run exits 0,
and its dispatch error, when there is one, is logged. -/
theorem main_exit_code_characterization_witness :
    ((mainRun argsList "" none none (MainEvent.outcome none) none).exitCode = 0 ↔
      (checkCliArgs argsList = none ∧ ((¬("" = "")) → (none : Option GoErr) = none)
        ∧ (none : Option GoErr) = none ∧ (none : Option GoErr) = none))
    ∧ GoErr.unknownMode ∈
        (mainRun argsList "" none none
          (MainEvent.outcome (some GoErr.unknownMode)) none).loggedErrors :=
  ⟨(main_exit_code_characterization argsList "" none none none (MainEvent.outcome none)).1,
   (main_exit_code_characterization argsList "" none none none
      (MainEvent.outcome (some GoErr.unknownMode))).2 GoErr.unknownMode rfl (by decide) rfl rfl⟩

/-- C2 counterexample: the same otherwise-successful run exits 0 when
`Close()` succeeds but 1 when `Close()` fails — `log.Fatalf` changes the
already-decided exit status, contradicting the claim that a close failure
is logged only. -/
theorem close_failure_changes_exit_status :
    (mainRun argsList "" none none (MainEvent.outcome none) none).exitCode = 0
    ∧ (mainRun argsList "" none none (MainEvent.outcome none)
        (some (GoErr.external "close failed"))).exitCode = 1 := by
  decide

/-- C2 amended: when `Close()` fails after the `select` has resolved, the
error is logged and the process exits with status 1 via `log.Fatalf` — an
orderly exit, not a panic, but one that overrides the exit status the run
had otherwise decided. -/
theorem close_failure_logged_and_exits_one (args : cliArgs) (configPath : String)
    (cfgLoad newApp : Option GoErr) (ev : MainEvent) (e : GoErr) :
    checkCliArgs args = none → (if configPath ≠ "" then cfgLoad else none) = none →
    newApp = none →
    (mainRun args configPath cfgLoad newApp ev (some e)).exitCode = 1
    ∧ e ∈ (mainRun args configPath cfgLoad newApp ev (some e)).loggedErrors := by
  intro hchk hpath hnew
  subst hnew
  rcases ev with _ | oe <;> simp [mainRun, hchk, hpath]

/-- Witness for C2 amended at a concrete input. -/
theorem close_failure_logged_and_exits_one_witness :
    (mainRun argsList "" none none MainEvent.osSignal
        (some (GoErr.external "close failed"))).exitCode = 1
    ∧ GoErr.external "close failed" ∈
        (mainRun argsList "" none none MainEvent.osSignal
          (some (GoErr.external "close failed"))).loggedErrors :=
  close_failure_logged_and_exits_one argsList "" none none MainEvent.osSignal
    (GoErr.external "close failed") (by decide) rfl rfl

/-- A full capacity-1 buffer stays full under further send attempts. -/
theorem pushSends_full {α : Type} (a : α) (l : List α) :
    (pushSends [a] l).1 = [a] := by
  induction l with
  | nil => rfl
  | cons v rest ih => simpa [pushSends, chanSend] using ih

/-- C3 counterexample: a second writer that reaches the full single-slot
buffer does not complete without blocking — its send attempt blocks
(`chanSend` yields `none`) and its value never enters the buffer. This
contradicts the claim that every later writer completes without blocking. -/
theorem later_writer_blocks :
    chanSend [some (GoErr.external "first")] (some (GoErr.external "second")) = none
    ∧ (pushSends ([] : List (Option GoErr))
        [some (GoErr.external "first"), some (GoErr.external "second")]).2
      = [some (GoErr.external "second")] := by
  decide

/-- C3 amended: the outcome delivered to `main` is always the first value
sent, whenever `main`'s single receive happens relative to the send
attempts — first-writer-wins holds — but a later writer arriving at a full
buffer blocks on the send rather than completing with its value discarded
or logged. -/
theorem first_writer_wins {α : Type} (sends : List α) (k : Nat) :
    deliveredOutcome sends k = sends.head?
    ∧ ∀ (a v : α), chanSend [a] v = none := by
  constructor
  · rcases sends with _ | ⟨s, rest⟩
    · simp [deliveredOutcome, pushSends, chanRecv]
    · rcases k with _ | k
      · simp [deliveredOutcome, pushSends, chanRecv]
      · simp [deliveredOutcome, pushSends, chanSend, pushSends_full, chanRecv]
  · intro a v
    simp [chanSend]

/-- C8 counterexample: when the session closes before readiness without
reporting any error and with no interrupt (no `select` event fires and the
error callback never fires with a non-nil error), nothing at all is sent to
`errChan` — no termination outcome is recorded, rather than a distinct
`connection-closed-unexpectedly` outcome. -/
theorem silent_close_records_no_outcome :
    errChanSends none "list" (fun _ => none) [] = [] := by
  decide

/-- C8 amended: if the session closes before the readiness signal ever
fires and without reporting a distinguishable error, no outcome is
recorded: no value reaches `errChan` (the code has no
connection-closed-unexpectedly outcome value), so `main` stays blocked in
its `select` until an operator interrupt arrives. -/
theorem silent_close_blocks_forever (mode : String)
    (dispatchErr : String → Option GoErr) :
    errChanSends none mode dispatchErr [] = []
    ∧ deliveredOutcome (errChanSends none mode dispatchErr []) 0 = none := by
  constructor
  · rfl
  · rfl

theorem annotIndices_plain (l : List VLine) (x : VLine) (hx : lineAnnot x = none) :
    annotIndices (l ++ [x]) = annotIndices l := by
  simp [annotIndices, List.filterMap_append, List.filterMap_cons, hx]

theorem annotIndices_annot (l : List VLine) (o nn i : Nat) (e : GoErr) :
    annotIndices (l ++ [VLine.annotatedLine o nn i e]) = annotIndices l ++ [i] := by
  simp [annotIndices, List.filterMap_append, List.filterMap_cons, lineAnnot]

theorem nodup_snoc {α : Type} {l : List α} {a : α} (h : l.Nodup) (ha : a ∉ l) :
    (l ++ [a]).Nodup := by
  rw [List.nodup_append]
  exact ⟨h, List.nodup_singleton a, fun x hx hx2 => ha ((List.mem_singleton.mp hx2) ▸ hx)⟩

theorem reporterStep_inv (s : ReporterState) (n : Nat) (ev : VEvent)
    (h : ReporterInv s n) : ReporterInv (reporterStep s n ev) (n + 1) := by
  obtain ⟨q, ls⟩ := s
  obtain ⟨h1, h2, h3, h4⟩ := h
  simp only [holderIndices] at h2 h3
  cases ev with
  | errEvent err disconnecting =>
    cases disconnecting with
    | false =>
      show ReporterInv ⟨q, ls ++ [.errorLine err]⟩ (n + 1)
      refine ⟨?_, ?_, ?_, ?_⟩
      · rw [show (⟨q, ls ++ [.errorLine err]⟩ : ReporterState).lines
              = ls ++ [.errorLine err] from rfl,
          annotIndices_plain ls (VLine.errorLine err) rfl]
        exact h1
      · exact h2
      · intro i hi
        rw [show (⟨q, ls ++ [.errorLine err]⟩ : ReporterState).lines
              = ls ++ [.errorLine err] from rfl,
          annotIndices_plain ls (VLine.errorLine err) rfl]
        exact ⟨(h3 i hi).1, Nat.lt_succ_of_lt (h3 i hi).2⟩
      · intro i hi
        rw [show (⟨q, ls ++ [.errorLine err]⟩ : ReporterState).lines
              = ls ++ [.errorLine err] from rfl,
          annotIndices_plain ls (VLine.errorLine err) rfl] at hi
        exact Nat.lt_succ_of_lt (h4 i hi)
    | true =>
      show ReporterInv ⟨q ++ [(n, err)], ls⟩ (n + 1)
      refine ⟨h1, ?_, ?_, fun i hi => Nat.lt_succ_of_lt (h4 i hi)⟩
      · show ((q ++ [(n, err)]).map Prod.fst).Nodup
        rw [List.map_append]
        exact nodup_snoc h2 (fun hmem => Nat.lt_irrefl n (h3 n hmem).2)
      · intro j hj
        rw [show holderIndices ⟨q ++ [(n, err)], ls⟩ = (q ++ [(n, err)]).map Prod.fst from rfl,
          List.map_append] at hj
        rcases List.mem_append.mp hj with hm | hm
        · exact ⟨(h3 j hm).1, Nat.lt_succ_of_lt (h3 j hm).2⟩
        · have heq : j = n := List.mem_singleton.mp hm
          refine ⟨fun hmem => ?_, by omega⟩
          have := h4 j hmem
          omega
  | stateChange o nn =>
    rcases q with _ | ⟨⟨i, oe⟩, rest⟩
    · show ReporterInv ⟨[], ls ++ [.stateLine o nn]⟩ (n + 1)
      refine ⟨?_, h2, ?_, ?_⟩
      · rw [show (⟨[], ls ++ [.stateLine o nn]⟩ : ReporterState).lines
              = ls ++ [.stateLine o nn] from rfl,
          annotIndices_plain ls (VLine.stateLine o nn) rfl]
        exact h1
      · intro j hj
        exact absurd hj (List.not_mem_nil j)
      · intro j hj
        rw [show (⟨[], ls ++ [.stateLine o nn]⟩ : ReporterState).lines
              = ls ++ [.stateLine o nn] from rfl,
          annotIndices_plain ls (VLine.stateLine o nn) rfl] at hj
        exact Nat.lt_succ_of_lt (h4 j hj)
    · have hihead : i ∈ ((i, oe) :: rest).map Prod.fst := List.mem_cons_self i _
      rcases oe with _ | e
      · show ReporterInv ⟨rest, ls ++ [.stateLine o nn]⟩ (n + 1)
        refine ⟨?_, (List.nodup_cons.mp h2).2, ?_, ?_⟩
        · rw [show (⟨rest, ls ++ [.stateLine o nn]⟩ : ReporterState).lines
                = ls ++ [.stateLine o nn] from rfl,
            annotIndices_plain ls (VLine.stateLine o nn) rfl]
          exact h1
        · intro j hj
          have hj2 : j ∈ ((i, none) :: rest).map Prod.fst := List.mem_cons_of_mem _ hj
          rw [show (⟨rest, ls ++ [.stateLine o nn]⟩ : ReporterState).lines
                = ls ++ [.stateLine o nn] from rfl,
            annotIndices_plain ls (VLine.stateLine o nn) rfl]
          exact ⟨(h3 j hj2).1, Nat.lt_succ_of_lt (h3 j hj2).2⟩
        · intro j hj
          rw [show (⟨rest, ls ++ [.stateLine o nn]⟩ : ReporterState).lines
                = ls ++ [.stateLine o nn] from rfl,
            annotIndices_plain ls (VLine.stateLine o nn) rfl] at hj
          exact Nat.lt_succ_of_lt (h4 j hj)
      · show ReporterInv ⟨rest, ls ++ [.annotatedLine o nn i e]⟩ (n + 1)
        refine ⟨?_, (List.nodup_cons.mp h2).2, ?_, ?_⟩
        · rw [show (⟨rest, ls ++ [.annotatedLine o nn i e]⟩ : ReporterState).lines
                = ls ++ [.annotatedLine o nn i e] from rfl,
            annotIndices_annot]
          exact nodup_snoc h1 (h3 i hihead).1
        · intro j hj
          have hj2 : j ∈ ((i, some e) :: rest).map Prod.fst := List.mem_cons_of_mem _ hj
          rw [show (⟨rest, ls ++ [.annotatedLine o nn i e]⟩ : ReporterState).lines
                = ls ++ [.annotatedLine o nn i e] from rfl,
            annotIndices_annot]
          refine ⟨?_, Nat.lt_succ_of_lt (h3 j hj2).2⟩
          intro hmem
          rcases List.mem_append.mp hmem with hm | hm
          · exact (h3 j hj2).1 hm
          · rcases List.mem_singleton.mp hm with rfl
            exact (List.nodup_cons.mp h2).1 hj
        · intro j hj
          rw [show (⟨rest, ls ++ [.annotatedLine o nn i e]⟩ : ReporterState).lines
                = ls ++ [.annotatedLine o nn i e] from rfl,
            annotIndices_annot] at hj
          rcases List.mem_append.mp hj with hm | hm
          · exact Nat.lt_succ_of_lt (h4 j hm)
          · rcases List.mem_singleton.mp hm with rfl
            exact Nat.lt_succ_of_lt (h3 j hihead).2

theorem reporterRunFrom_inv (events : List VEvent) (s : ReporterState) (n : Nat)
    (h : ReporterInv s n) : ReporterInv (reporterRunFrom s n events) (n + events.length) := by
  induction events generalizing s n with
  | nil => simpa [reporterRunFrom]
  | cons ev rest ih =>
    have := ih (reporterStep s n ev) (n + 1) (reporterStep_inv s n ev h)
    simpa [reporterRunFrom, Nat.add_comm, Nat.add_assoc, Nat.add_left_comm] using this

/-- C9: over any history of error and state-change events, each
disconnect-causing error occurrence is attached to a rendered
state-transition line at most once — the indices surfaced by annotated
lines are pairwise distinct, so an error consumed from the pending-error
holder is never re-printed on a later transition. -/
theorem reporter_no_error_reprinted (events : List VEvent) :
    (annotIndices (reporterRun events).lines).Nodup := by
  have hinv : ReporterInv { lastErrQueue := [], lines := [] } 0 := by
    refine ⟨List.nodup_nil, ?_, ?_, ?_⟩ <;> simp [holderIndices, annotIndices]
  exact (reporterRunFrom_inv events _ 0 hinv).1

/-- C10: `balances` restores the global log flags: on every path (error or
success) the flags after the call equal the flags at entry, and on success
the balance mapping itself is printed while the flags are temporarily 0. -/
theorem balances_preserves_log_flags (s : LogState) (reply : Except GoErr String) :
    ((balances s reply).1.flags = s.flags)
    ∧ (∀ r, reply = .ok r →
        (0, "balances=" ++ r) ∈ (balances s reply).1.lines) := by
  constructor
  · rcases reply with e | r <;> rfl
  · intro r hr
    subst hr
    simp [balances, logPrint, logSetFlags]

/-- Witness for C10 at a concrete input. -/
theorem balances_preserves_log_flags_witness :
    ((balances { flags := 3, lines := [] } (Except.ok "map")).1.flags = 3)
    ∧ (0, "balances=map") ∈ (balances { flags := 3, lines := [] } (Except.ok "map")).1.lines :=
  ⟨(balances_preserves_log_flags { flags := 3, lines := [] } (Except.ok "map")).1,
   (balances_preserves_log_flags { flags := 3, lines := [] } (Except.ok "map")).2 "map" rfl⟩

/-- C7 counterexample: two distinct validated command requests produce
byte-for-byte identical price, amount, side, and order-type parameters —
the submitted values are the hardcoded constants `"0.01"`, buy, limit, not
action-specific parameters of the validated command request (the `cliArgs`
struct carries no price, amount, side, or order-type field at all). -/
theorem place_params_ignore_command_request :
    argsPlaceA ≠ argsPlaceB
    ∧ checkCliArgs argsPlaceA = none
    ∧ checkCliArgs argsPlaceB = none
    ∧ placeParams (mkTradeApp argsPlaceA) = placeParams (mkTradeApp argsPlaceB)
    ∧ (placeParams (mkTradeApp argsPlaceA)).amount = "0.01"
    ∧ (placeParams (mkTradeApp argsPlaceA)).priceParams
        = [{ ptype := .absoluteValuePrice, value := "0.01" }] := by
  refine ⟨by decide, by decide, by decide, rfl, rfl, rfl⟩

/-- C7 amended: `place` calls `session.placeOrder` with the hardcoded
constants — absolute price `"0.01"`, amount `"0.01"`, side buy, order type
limit, all in decimal-string form (not floating point) — together with the
requested market id, and on success logs the returned created order. -/
theorem place_submits_hardcoded_decimal_params (app : TradeApp)
    (placeOrder : PlaceOrderParams → Except GoErr String) :
    placeParams app =
      { priceParams := [{ ptype := .absoluteValuePrice, value := "0.01" }]
        marketID := app.marketID
        amount := "0.01"
        orderSide := .buy
        orderType := .limitOrder }
    ∧ (∀ order, placeOrder (placeParams app) = .ok order →
        (place app placeOrder).1
          = ["Trading ready: placing order...", "Order placed: " ++ order]
        ∧ (place app placeOrder).2 = none) := by
  refine ⟨rfl, ?_⟩
  intro order hr
  simp [place, hr]

/-- Witness for C7 amended at a concrete input. -/
theorem place_submits_hardcoded_decimal_params_witness :
    placeParams (mkTradeApp argsPlaceA) =
      { priceParams := [{ ptype := .absoluteValuePrice, value := "0.01" }]
        marketID := (mkTradeApp argsPlaceA).marketID
        amount := "0.01"
        orderSide := .buy
        orderType := .limitOrder }
    ∧ ((place (mkTradeApp argsPlaceA) (fun _ => Except.ok "ORD-1")).1
        = ["Trading ready: placing order...", "Order placed: ORD-1"]
      ∧ (place (mkTradeApp argsPlaceA) (fun _ => Except.ok "ORD-1")).2 = none) :=
  ⟨(place_submits_hardcoded_decimal_params (mkTradeApp argsPlaceA)
      (fun _ => Except.ok "ORD-1")).1,
   (place_submits_hardcoded_decimal_params (mkTradeApp argsPlaceA)
      (fun _ => Except.ok "ORD-1")).2 "ORD-1" rfl⟩

/-- C6: startup argument validation (`checkCliArgs`) succeeds if and only
if the mode is one of `list`, `balances`, `place`, `cancel`, the market id
is non-zero, and, when the mode is `cancel`, the order id is non-empty; any
other combination is rejected as a configuration error (exit status 1)
before the connection starts. -/
theorem checkCliArgs_ok_characterization (a : cliArgs) :
    (checkCliArgs a = none ↔
      ((a.Mode = "list" ∨ a.Mode = "balances" ∨ a.Mode = "place" ∨ a.Mode = "cancel")
        ∧ a.MarketID ≠ 0
        ∧ (a.Mode = "cancel" → a.OrderID ≠ "")))
    ∧ (∀ e configPath cfgLoad newApp ev closeErr, checkCliArgs a = some e →
        (mainRun a configPath cfgLoad newApp ev closeErr).exitCode = 1
        ∧ (mainRun a configPath cfgLoad newApp ev closeErr).connectCalled = false) := by
  refine ⟨checkCliArgs_none_iff a, ?_⟩
  intro e configPath cfgLoad newApp ev closeErr h
  simp [mainRun, h]

/-- Witness for C6 at concrete inputs: the `list` arguments validate, and a
`cancel` request with an empty order id is rejected before connecting. -/
theorem checkCliArgs_ok_characterization_witness :
    checkCliArgs argsList = none
    ∧ (mainRun { argsList with Mode := "cancel" } "" none none MainEvent.osSignal
        none).exitCode = 1
    ∧ (mainRun { argsList with Mode := "cancel" } "" none none MainEvent.osSignal
        none).connectCalled = false :=
  ⟨(checkCliArgs_ok_characterization argsList).1.mpr
      ⟨Or.inl rfl, by decide, fun h => absurd h (by decide)⟩,
   ((checkCliArgs_ok_characterization { argsList with Mode := "cancel" }).2
      GoErr.orderidEmpty "" none none MainEvent.osSignal none (by decide)).1,
   ((checkCliArgs_ok_characterization { argsList with Mode := "cancel" }).2
      GoErr.orderidEmpty "" none none MainEvent.osSignal none (by decide)).2⟩

end TradeClient
